import Mathlib

/-!
Shallow embedding of the rust-keyutils kernel-keyring binding.

The definitions below are translated from the repository sources:
  * src/src/api.rs           (domain objects Keyring / Key, Description parsing)
  * src/src/constants.rs     (Permission bitflags)
  * src/keyutils-raw/src/functions.rs and constants.rs (raw syscall layer)
  * src/src/ffi.rs           (old FFI layer signatures)

Kernel syscall return values are modelled by an oracle function from the
index of the call in program order to the returned c_long value, together
with an oracle giving the thread errno after each call.  Machine integers
are modelled as Int / Nat with the explicit wrap-arounds of the Rust casts.
-/

deriving instance DecidableEq for Except

namespace Keyutils

/-- OS error number, as carried by errno::Errno (a c_int). -/
abbrev Errno := Int

/-- libc ENOKEY on Linux. -/
def ENOKEY : Errno := 126

/-- libc EINVAL on Linux. -/
def EINVAL : Errno := 22

/-- Outcome of a Rust computation that can end the process by panicking
(`unwrap` / `expect` on a failing value) instead of returning. -/
inductive Outcome (α : Type) where
  | panicked : Outcome α
  | value : α → Outcome α
deriving DecidableEq

/-- The Rust cast `x as usize` applied to a 64-bit signed value (c_long),
i.e. reinterpretation of the two's-complement bits as an unsigned 64-bit
number. -/
def asUsize (i : Int) : ℕ := (i % (2 : Int) ^ 64).toNat

/-- The Rust cast `x as i32` applied to a c_long: wrapping truncation to the
low 32 bits, read back as a signed 32-bit value. -/
def asI32 (i : Int) : Int := (i + 2 ^ 31) % 2 ^ 32 - 2 ^ 31

/-- api.rs `check_call`: a raw return of -1 means failure, reported with the
calling thread's current errno; anything else is success. -/
def check_call (res : Int) (e : Errno) : Except Errno Unit :=
  if res = -1 then .error e else .ok ()

/-- api.rs `Key::read` success data, as (allocated capacity, length passed to
`Vec::set_len`).  The code probes with a null buffer (call 0), allocates
`sz as usize` bytes, fills once (call 1) and sets the vector length to the
second reported size.  There is no retry loop. -/
def Key.read (ret : ℕ → Int) (eno : ℕ → Errno) : Except Errno (ℕ × ℕ) :=
  match check_call (ret 0) (eno 0) with
  | .error e => .error e
  | .ok _ =>
    match check_call (ret 1) (eno 1) with
    | .error e => .error e
    | .ok _ => .ok (asUsize (ret 0), asUsize (ret 1))

/-- api.rs `Key::compute_dh` buffer handling: identical single probe/fill
structure to `Key::read` (calls 0 and 1 of its own trace). -/
def Key.compute_dh (ret : ℕ → Int) (eno : ℕ → Errno) : Except Errno (ℕ × ℕ) :=
  match check_call (ret 0) (eno 0) with
  | .error e => .error e
  | .ok _ =>
    match check_call (ret 1) (eno 1) with
    | .error e => .error e
    | .ok _ => .ok (asUsize (ret 0), asUsize (ret 1))

/-- api.rs `Keyring::description_raw` buffer handling: probe, allocate, fill
once, then `set_len((actual_sz - 1) as usize)` — the kernel's trailing NUL is
dropped from the returned string length. -/
def Keyring.description_raw (ret : ℕ → Int) (eno : ℕ → Errno) :
    Except Errno (ℕ × ℕ) :=
  match check_call (ret 0) (eno 0) with
  | .error e => .error e
  | .ok _ =>
    match check_call (ret 1) (eno 1) with
    | .error e => .error e
    | .ok _ => .ok (asUsize (ret 0), asUsize (ret 1 - 1))

/-- api.rs `Keyring::security` buffer handling: probe, allocate, fill once,
then `set_len(actual_sz as usize)` — the full reported length is kept. -/
def Keyring.security (ret : ℕ → Int) (eno : ℕ → Errno) :
    Except Errno (ℕ × ℕ) :=
  match check_call (ret 0) (eno 0) with
  | .error e => .error e
  | .ok _ =>
    match check_call (ret 1) (eno 1) with
    | .error e => .error e
    | .ok _ => .ok (asUsize (ret 0), asUsize (ret 1))

/-- api.rs `Keyring::read`, serial-buffer phase: capacities and lengths are
counted in `KeyringSerial` entries, dividing byte sizes by
`mem::size_of::<KeyringSerial>() = 4`. -/
def Keyring.read_raw (ret : ℕ → Int) (eno : ℕ → Errno) :
    Except Errno (ℕ × ℕ) :=
  match check_call (ret 0) (eno 0) with
  | .error e => .error e
  | .ok _ =>
    match check_call (ret 1) (eno 1) with
    | .error e => .error e
    | .ok _ => .ok (asUsize (ret 0) / 4, asUsize (ret 1) / 4)

/-- keyutils-raw/src/constants.rs `KEY_TYPE_KEYRING`, the kernel type name of
keyrings.  Modelled from the spec for the use site `keytypes::Keyring::name()`:
the file src/keytypes/keyring.rs implementing the `Keyring` key-type marker is
not present under src/, and per the spec the Keyring capability's kernel type
name is the string "keyring", matching this constant.  Rust strings are
embedded as their character lists. -/
def keyringTypeName : List Char := "keyring".toList

/-- api.rs `Description`: metadata parsed from the kernel describe string. -/
structure Description where
  type_ : List Char
  uid : ℕ
  gid : ℕ
  perms : ℕ
  description : List Char
deriving DecidableEq

/-- Rust `str::split(';')` on the embedded character list: splits at every
semicolon, keeping empty pieces, and yields one (empty) piece for the empty
string. -/
def splitSemi : List Char → List Char → List (List Char)
  | [], acc => [acc.reverse]
  | c :: rest, acc =>
    if c = ';' then acc.reverse :: splitSemi rest []
    else splitSemi rest (c :: acc)

/-- Value of an ASCII digit character for the given radix (10 or 16), as
accepted by Rust's `from_str_radix`. -/
def digitValue (radix : ℕ) (c : Char) : Option ℕ :=
  if '0' ≤ c ∧ c ≤ '9' then
    let d := c.toNat - '0'.toNat
    if d < radix then some d else none
  else if 'a' ≤ c ∧ c ≤ 'z' then
    let d := c.toNat - 'a'.toNat + 10
    if d < radix then some d else none
  else if 'A' ≤ c ∧ c ≤ 'Z' then
    let d := c.toNat - 'A'.toNat + 10
    if d < radix then some d else none
  else none

/-- Rust `u32::from_str_radix` / `str::parse::<u32>` (for uid_t, gid_t and
KeyPermissions, all u32): an optional leading '+', then at least one digit of
the radix; overflow past 2^32 - 1 is an error.  A leading '-' is rejected for
unsigned targets. -/
def parseU32Radix (radix : ℕ) (s : List Char) : Option ℕ :=
  let cs := match s with
    | '+' :: rest => rest
    | cs => cs
  if cs = [] then none
  else
    cs.foldl
      (fun acc c =>
        match acc with
        | none => none
        | some a =>
          match digitValue radix c with
          | none => none
          | some d =>
            let v := a * radix + d
            if v < 2 ^ 32 then some v else none)
      (some 0)

/-- Union of all bits defined by the `Permission` bitflags in
src/src/constants.rs (four 6-bit zones); `from_bits_truncate` masks with it. -/
def permissionKnownBits : ℕ := 0x3f3f3f3f

/-- api.rs `Description::parse`: split the kernel string on ';', reverse so
fields are indexed from the tail, fail (None) on fewer than five fields,
log-and-ignore extra fields, and build the record from indices 4 (type),
3 (uid), 2 (gid), 1 (permission hex), 0 (description) of the reversed list.
The numeric conversions use `unwrap`, so a malformed numeric field panics. -/
def Description.parse (desc : List Char) : Outcome (Option Description) :=
  let pieces := (splitSemi desc []).reverse
  if pieces.length < 5 then .value none
  else
    match parseU32Radix 16 pieces[1]! with
    | none => .panicked
    | some bits =>
      match parseU32Radix 10 pieces[3]! with
      | none => .panicked
      | some uid =>
        match parseU32Radix 10 pieces[2]! with
        | none => .panicked
        | some gid =>
          .value (some { type_ := pieces[4]!, uid := uid, gid := gid,
                         perms := bits &&& permissionKnownBits,
                         description := pieces[0]! })

/-- api.rs `Keyring::description` applied to an already retrieved raw string:
`Description::parse(&desc).ok_or(errno::Errno(libc::EINVAL))`. -/
def Keyring.description (raw : List Char) : Outcome (Except Errno Description) :=
  match Description.parse raw with
  | .panicked => .panicked
  | .value none => .value (.error EINVAL)
  | .value (some d) => .value (.ok d)

/-- api.rs `Keyring::read`, classification loop: each child serial is paired
with the outcome of its own describe call; keyring-typed children go to the
second list, others to the first, a child whose describe fails with ENOKEY is
skipped, and any other describe error aborts the whole read with that error.
Pushes are modelled by accumulators reversed at the end. -/
def Keyring.readClassify :
    List (Int × Except Errno Description) → List Int → List Int →
    Except Errno (List Int × List Int)
  | [], keys, keyrings => .ok (keys.reverse, keyrings.reverse)
  | (id, res) :: rest, keys, keyrings =>
    match res with
    | .ok d =>
      if d.type_ = keyringTypeName then
        Keyring.readClassify rest keys (id :: keyrings)
      else
        Keyring.readClassify rest (id :: keys) keyrings
    | .error e =>
      if e = ENOKEY then Keyring.readClassify rest keys keyrings
      else .error e

/-- api.rs `Keyring::read`, classification of the children list starting from
empty keys/keyrings vectors. -/
def Keyring.readChildren (children : List (Int × Except Errno Description)) :
    Except Errno (List Int × List Int) :=
  Keyring.readClassify children [] []

/-- A child entry whose describe outcome does not abort the read: either the
describe succeeded or it failed with ENOKEY. -/
def childNonfatal (c : Int × Except Errno Description) : Bool :=
  match c.2 with
  | .ok _ => true
  | .error e => if e = ENOKEY then true else false

/-- Children classified as plain keys by the loop in api.rs `Keyring::read`:
successfully described with a non-"keyring" type. -/
def classifiedKeys (xs : List (Int × Except Errno Description)) : List Int :=
  xs.filterMap fun c =>
    match c.2 with
    | .ok d => if d.type_ = keyringTypeName then none else some c.1
    | .error _ => none

/-- Children classified as keyrings by the loop in api.rs `Keyring::read`:
successfully described with the "keyring" type. -/
def classifiedKeyrings (xs : List (Int × Except Errno Description)) :
    List Int :=
  xs.filterMap fun c =>
    match c.2 with
    | .ok d => if d.type_ = keyringTypeName then some c.1 else none
    | .error _ => none

/-- keyutils-raw/src/functions.rs `keyring_serial`: convert a raw c_long into
a key serial.  `res.try_into()` (i64 to i32) panics with THE_KERNEL_LIED when
the value is outside the i32 range; `KeyringSerial::new` (NonZeroI32) panics
with ZERO_KEY_ID_FOUND when the value is zero. -/
def keyring_serial (res : Int) : Outcome Int :=
  if res < -(2 ^ 31) ∨ 2 ^ 31 - 1 < res then .panicked
  else if res = 0 then .panicked
  else .value res

/-- api.rs `into_serial`: `KeyringSerial::new(res as i32).unwrap()` — the
c_long is truncated with a wrapping cast to i32 and only a zero truncation
panics (NonZeroI32::new returning None). -/
def into_serial (res : Int) : Outcome Int :=
  let t := asI32 res
  if t = 0 then .panicked else .value t

/-- api.rs `Keyring::search_impl` composed with `check_call_key`: the raw
keyctl_search return is first converted with `into_serial`, then checked
against the -1 failure sentinel (with errno `e`). -/
def Keyring.searchResult (res : Int) (e : Errno) :
    Outcome (Except Errno Int) :=
  match into_serial res with
  | .panicked => .panicked
  | .value s => .value (if s = -1 then .error e else .ok s)

/-- The all-ones uid_t/gid_t sentinel `!0` (u32). -/
def allOnesU32 : ℕ := 0xffffffff

/-- The (uid, gid) argument pair handed to the KEYCTL_CHOWN syscall. -/
structure ChownArgs where
  uid : ℕ
  gid : ℕ
deriving DecidableEq

/-- keyutils-raw/src/functions.rs `keyctl_chown`: an absent optional uid or
gid is encoded at the syscall boundary as `unwrap_or(!0)`. -/
def keyctl_chown_args (uid gid : Option ℕ) : ChownArgs :=
  { uid := uid.getD allOnesU32, gid := gid.getD allOnesU32 }

/-- api.rs `Keyring::chown`: `keyctl_chown(self.id, uid, !0)` — the gid slot
carries the all-ones sentinel. -/
def Keyring.chownArgs (uid : ℕ) : ChownArgs :=
  { uid := uid, gid := allOnesU32 }

/-- api.rs `Keyring::chgrp`: `keyctl_chown(self.id, !0, gid)` — the uid slot
carries the all-ones sentinel. -/
def Keyring.chgrpArgs (gid : ℕ) : ChownArgs :=
  { uid := allOnesU32, gid := gid }

/-- Modelled from the spec: the kernel (an external actor, not code of this
repository) changes a key's (uid, gid) owner pair according to the chown
arguments, leaving a component unchanged when it is the all-ones sentinel. -/
def chownEffect (owner : ℕ × ℕ) (args : ChownArgs) : ℕ × ℕ :=
  (if args.uid = allOnesU32 then owner.1 else args.uid,
   if args.gid = allOnesU32 then owner.2 else args.gid)

/-- The NUL character, terminator of C strings. -/
def nulChar : Char := Char.ofNat 0

/-- keyutils-raw/src/functions.rs `cstring` and the inline
`CString::new(..).unwrap()` calls of api.rs: constructing the NUL-terminated
buffer panics when the input holds an interior NUL, and otherwise passes the
string through unmodified with a terminator appended. -/
def cstring (s : List Char) : Outcome (List Char) :=
  if nulChar ∈ s then .panicked else .value (s ++ [nulChar])

/-- The argument record of a request_key syscall as issued by api.rs
`request_impl`. -/
structure RequestCall where
  type_ : List Char
  desc : List Char
  callout : Option (List Char)
  keyring : Option Int
deriving DecidableEq

/-- api.rs `request_impl::<K>`: converts `K::name()`, the description and the
optional callout info to C strings (panicking on interior NUL) and issues
request_key with the optional destination keyring. `kName` stands for the
compile-time `K::name()`. -/
def request_impl (kName descStr : List Char) (info : Option (List Char))
    (id : Option Int) : Outcome RequestCall :=
  match cstring kName with
  | .panicked => .panicked
  | .value t =>
    match cstring descStr with
    | .panicked => .panicked
    | .value d =>
      match info with
      | none => .value { type_ := t, desc := d, callout := none, keyring := id }
      | some i =>
        match cstring i with
        | .panicked => .panicked
        | .value ic =>
          .value { type_ := t, desc := d, callout := some ic, keyring := id }

/-- The argument record of an add_key syscall as issued by api.rs
`Keyring::add_key_impl`. -/
structure AddKeyCall where
  type_ : List Char
  desc : List Char
  payload : List ℕ
  keyring : Int
deriving DecidableEq

/-- api.rs `Keyring::add_key_impl::<K>`: converts `K::name()` and the encoded
description to C strings (panicking on interior NUL) and passes the payload
bytes through unmodified. -/
def Keyring.add_key_impl (kName descStr : List Char) (payload : List ℕ)
    (ring : Int) : Outcome AddKeyCall :=
  match cstring kName with
  | .panicked => .panicked
  | .value t =>
    match cstring descStr with
    | .panicked => .panicked
    | .value d =>
      .value { type_ := t, desc := d, payload := payload, keyring := ring }

/-- api.rs `Key::request::<K, D>`: `request_impl::<K>` with no callout info
and no destination keyring. -/
def Key.request (kName descStr : List Char) : Outcome RequestCall :=
  request_impl kName descStr none none

/-- api.rs `Key::request_with_fallback::<K, D, I>`: the body instantiates
`request_impl::<keytypes::Keyring>` — not `request_impl::<K>` — so the kernel
type string comes from the Keyring key type whatever `K` is; `kName` stands
for the unused `K::name()`. -/
def Key.request_with_fallback (kName descStr info : List Char) :
    Outcome RequestCall :=
  request_impl keyringTypeName descStr (some info) none

/-- keyutils-raw/src/constants.rs `KEY_POS_VIEW` (the same values back the
`Permission` bitflags of src/src/constants.rs and the statics of
src/src/ffi.rs). -/
def KEY_POS_VIEW : ℕ := 0x01000000

/-- keyutils-raw/src/constants.rs `KEY_POS_READ`. -/
def KEY_POS_READ : ℕ := 0x02000000

/-- keyutils-raw/src/constants.rs `KEY_POS_WRITE`. -/
def KEY_POS_WRITE : ℕ := 0x04000000

/-- keyutils-raw/src/constants.rs `KEY_POS_SEARCH`. -/
def KEY_POS_SEARCH : ℕ := 0x08000000

/-- keyutils-raw/src/constants.rs `KEY_POS_LINK`. -/
def KEY_POS_LINK : ℕ := 0x10000000

/-- keyutils-raw/src/constants.rs `KEY_POS_SETATTR`. -/
def KEY_POS_SETATTR : ℕ := 0x20000000

/-- keyutils-raw/src/constants.rs `KEY_POS_ALL`. -/
def KEY_POS_ALL : ℕ := 0x3f000000

/-- keyutils-raw/src/constants.rs `KEY_USR_VIEW`. -/
def KEY_USR_VIEW : ℕ := 0x00010000

/-- keyutils-raw/src/constants.rs `KEY_USR_READ`. -/
def KEY_USR_READ : ℕ := 0x00020000

/-- keyutils-raw/src/constants.rs `KEY_USR_WRITE`. -/
def KEY_USR_WRITE : ℕ := 0x00040000

/-- keyutils-raw/src/constants.rs `KEY_USR_SEARCH`. -/
def KEY_USR_SEARCH : ℕ := 0x00080000

/-- keyutils-raw/src/constants.rs `KEY_USR_LINK`. -/
def KEY_USR_LINK : ℕ := 0x00100000

/-- keyutils-raw/src/constants.rs `KEY_USR_SETATTR`. -/
def KEY_USR_SETATTR : ℕ := 0x00200000

/-- keyutils-raw/src/constants.rs `KEY_USR_ALL`. -/
def KEY_USR_ALL : ℕ := 0x003f0000

/-- keyutils-raw/src/constants.rs `KEY_GRP_VIEW`. -/
def KEY_GRP_VIEW : ℕ := 0x00000100

/-- keyutils-raw/src/constants.rs `KEY_GRP_READ`. -/
def KEY_GRP_READ : ℕ := 0x00000200

/-- keyutils-raw/src/constants.rs `KEY_GRP_WRITE`. -/
def KEY_GRP_WRITE : ℕ := 0x00000400

/-- keyutils-raw/src/constants.rs `KEY_GRP_SEARCH`. -/
def KEY_GRP_SEARCH : ℕ := 0x00000800

/-- keyutils-raw/src/constants.rs `KEY_GRP_LINK`. -/
def KEY_GRP_LINK : ℕ := 0x00001000

/-- keyutils-raw/src/constants.rs `KEY_GRP_SETATTR`. -/
def KEY_GRP_SETATTR : ℕ := 0x00002000

/-- keyutils-raw/src/constants.rs `KEY_GRP_ALL`. -/
def KEY_GRP_ALL : ℕ := 0x00003f00

/-- keyutils-raw/src/constants.rs `KEY_OTH_VIEW`. -/
def KEY_OTH_VIEW : ℕ := 0x00000001

/-- keyutils-raw/src/constants.rs `KEY_OTH_READ`. -/
def KEY_OTH_READ : ℕ := 0x00000002

/-- keyutils-raw/src/constants.rs `KEY_OTH_WRITE`. -/
def KEY_OTH_WRITE : ℕ := 0x00000004

/-- keyutils-raw/src/constants.rs `KEY_OTH_SEARCH`. -/
def KEY_OTH_SEARCH : ℕ := 0x00000008

/-- keyutils-raw/src/constants.rs `KEY_OTH_LINK`. -/
def KEY_OTH_LINK : ℕ := 0x00000010

/-- keyutils-raw/src/constants.rs `KEY_OTH_SETATTR`. -/
def KEY_OTH_SETATTR : ℕ := 0x00000020

/-- keyutils-raw/src/constants.rs `KEY_OTH_ALL`. -/
def KEY_OTH_ALL : ℕ := 0x0000003f

/-- A kernel trace on which the object grows between the probe call (size 5)
and the fill call (size 10). -/
def growTrace : ℕ → Int := fun n => if n = 0 then 5 else 10

/-- A kernel trace reporting size 8 on every call (stable object). -/
def flat8Trace : ℕ → Int := fun _ => 8

/-- An errno oracle that is never consulted on the success paths used here. -/
def zeroErrno : ℕ → Errno := fun _ => 0

/-!  Theorems about the embedded code, one group per claim of the
specification. -/

/-- Claim C1, counterexample: the claim asserts that parsing the kernel string
"mydesc;1000;1000;3f010000;user" yields description "mydesc" and type "user";
the parser actually puts the first field of that string in `type_` and the
last in `description`, so the claimed Description value is not produced. -/
theorem description_parse_example_head_reading_false :
    Description.parse "mydesc;1000;1000;3f010000;user".toList ≠
      .value (some { type_ := "user".toList, uid := 1000, gid := 1000,
                     perms := 0x3f010000, description := "mydesc".toList }) := by
  decide

/-- Claim C1, amended: parsing "mydesc;1000;1000;3f010000;user" yields uid
1000, gid 1000 and permission mask 0x3f010000 as claimed, but — because the
fields are indexed from the tail of the semicolon split, i.e. the kernel
format is type;uid;gid;perm;description — the `type_` field receives "mydesc"
and the `description` field receives "user". -/
theorem description_parse_example_tail_reading :
    Description.parse "mydesc;1000;1000;3f010000;user".toList =
      .value (some { type_ := "mydesc".toList, uid := 1000, gid := 1000,
                     perms := 0x3f010000, description := "user".toList }) := by
  decide

/-- Claim C2: on a trace where the probe call reports 5 bytes and the fill
call reports 10 (the kernel object grew in between), every variable-length
retrieval operation returns after the single probe/fill pair, handing
`Vec::set_len` a length (10, or 9 after the describe terminator adjustment)
that exceeds the allocated capacity (5); no reallocation or retry happens.
This supports the code-is-wrong reading of the claim: the mandated retry loop
is absent and the single pass violates the `Vec::set_len` contract. -/
theorem variable_length_ops_single_pass_on_growth :
    Key.read growTrace zeroErrno = .ok (5, 10) ∧
    Key.compute_dh growTrace zeroErrno = .ok (5, 10) ∧
    Keyring.security growTrace zeroErrno = .ok (5, 10) ∧
    Keyring.description_raw growTrace zeroErrno = .ok (5, 9) ∧
    Keyring.read_raw growTrace zeroErrno = .ok (1, 2) ∧
    5 < 10 := by
  decide

/-- Claim C3, counterexample: on a successful security query whose fill call
reports 8 bytes, the returned length is 8, not the claimed 8 - 1 = 7 — the
security path keeps the kernel terminator byte. -/
theorem security_keeps_terminator_length :
    Keyring.security flat8Trace zeroErrno = .ok (8, 8) ∧ (8 : ℕ) ≠ 8 - 1 := by
  decide

/-- Claim C3, amended: on every successful two-call retrieval, describe
returns a string length of the reported filled length minus one (the kernel
terminator is dropped), while the security query returns the full filled
length with the terminator byte kept. -/
theorem describe_drops_terminator_security_does_not :
    ∀ (ret : ℕ → Int) (eno : ℕ → Errno) (sz actual : ℕ),
      ret 0 = (sz : Int) → ret 1 = (actual : Int) →
      sz < 2 ^ 64 → actual < 2 ^ 64 → 1 ≤ actual →
      Keyring.description_raw ret eno = .ok (sz, actual - 1) ∧
      Keyring.security ret eno = .ok (sz, actual) := by
  intro ret eno sz actual h0 h1 hsz hact hpos
  have hne0 : ¬ ret 0 = -1 := by rw [h0]; omega
  have hne1 : ¬ ret 1 = -1 := by rw [h1]; omega
  have e0 : asUsize (ret 0) = sz := by rw [h0]; unfold asUsize; omega
  have e1 : asUsize (ret 1) = actual := by rw [h1]; unfold asUsize; omega
  have e2 : asUsize (ret 1 - 1) = actual - 1 := by
    rw [h1]; unfold asUsize; omega
  constructor
  · simp [Keyring.description_raw, check_call, hne0, hne1, e0, e2]
  · simp [Keyring.security, check_call, hne0, hne1, e0, e1]

/-- Claim C3, witness: the amended theorem at the stable trace reporting 8
bytes on both calls. -/
theorem describe_drops_terminator_security_does_not_witness :
    Keyring.description_raw flat8Trace zeroErrno = .ok (8, 7) ∧
    Keyring.security flat8Trace zeroErrno = .ok (8, 8) := by
  have h := describe_drops_terminator_security_does_not flat8Trace zeroErrno
    8 8 rfl rfl (by decide) (by decide) (by decide)
  exact ⟨h.1.trans (by decide), h.2⟩

/-- Claim C6, counterexample: keyctl_search's result handling in api.rs
(`into_serial` then `check_call_key`) turns the kernel value 2^32 + 5, which
is not representable as a 32-bit integer, into the successful serial 5 by a
wrapping cast — no panic occurs and an Ok serial is returned. -/
theorem search_serial_truncates_without_panic :
    Keyring.searchResult (2 ^ 32 + 5) 13 = .value (.ok 5) := by
  decide

/-- Claim C6, amended: in the keyutils-raw layer, `keyring_serial` panics on
a kernel value outside the i32 range and on zero; in api.rs, `into_serial`
panics only when the value's wrapping truncation to 32 bits is zero, and a
value whose truncation is non-zero (and not the -1 failure sentinel) flows
through the search path as an Ok serial. -/
theorem serial_conversion_defect_handling :
    (∀ res : Int, res < -(2 ^ 31) ∨ 2 ^ 31 - 1 < res →
       keyring_serial res = .panicked) ∧
    keyring_serial 0 = .panicked ∧
    (∀ res : Int, asI32 res = 0 → into_serial res = .panicked) ∧
    (∀ (res s : Int) (e : Errno), asI32 res = s → s ≠ 0 → s ≠ -1 →
       Keyring.searchResult res e = .value (.ok s)) := by
  refine ⟨?_, by decide, ?_, ?_⟩
  · intro res h
    unfold keyring_serial
    rw [if_pos h]
  · intro res h
    unfold into_serial
    simp [h]
  · intro res s e h hs hne
    unfold Keyring.searchResult into_serial
    simp [h, hs, hne]

/-- Claim C6, witness: the amended theorem at the kernel values 2^32 (out of
range, truncating to zero) and 2^32 + 5 (out of range, truncating to 5). -/
theorem serial_conversion_defect_handling_witness :
    keyring_serial (2 ^ 32) = .panicked ∧
    keyring_serial 0 = .panicked ∧
    into_serial (2 ^ 32) = .panicked ∧
    Keyring.searchResult (2 ^ 32 + 5) 13 = .value (.ok 5) :=
  ⟨serial_conversion_defect_handling.1 (2 ^ 32) (by decide),
   serial_conversion_defect_handling.2.1,
   serial_conversion_defect_handling.2.2.1 (2 ^ 32) (by decide),
   serial_conversion_defect_handling.2.2.2 (2 ^ 32 + 5) 5 13
     (by decide) (by decide) (by decide)⟩

/-- Claim C7: api.rs `chown` passes the all-ones sentinel in the gid slot and
`chgrp` passes it in the uid slot, so (per the kernel sentinel semantics,
modelled by `chownEffect`) the other owner component is left unchanged; in
the keyutils-raw layer an absent optional uid or gid is encoded as the
all-ones value. -/
theorem chown_chgrp_sentinel_encoding :
    (∀ uid : ℕ, (Keyring.chownArgs uid).gid = allOnesU32) ∧
    (∀ gid : ℕ, (Keyring.chgrpArgs gid).uid = allOnesU32) ∧
    (∀ (owner : ℕ × ℕ) (uid : ℕ), uid ≠ allOnesU32 →
       chownEffect owner (Keyring.chownArgs uid) = (uid, owner.2)) ∧
    (∀ (owner : ℕ × ℕ) (gid : ℕ), gid ≠ allOnesU32 →
       chownEffect owner (Keyring.chgrpArgs gid) = (owner.1, gid)) ∧
    (∀ g : ℕ, keyctl_chown_args none (some g) =
       { uid := allOnesU32, gid := g }) ∧
    (∀ u : ℕ, keyctl_chown_args (some u) none =
       { uid := u, gid := allOnesU32 }) ∧
    keyctl_chown_args none none = { uid := allOnesU32, gid := allOnesU32 } := by
  refine ⟨fun uid => rfl, fun gid => rfl, ?_, ?_, fun g => rfl, fun u => rfl, rfl⟩
  · intro owner uid h
    simp [chownEffect, Keyring.chownArgs, h]
  · intro owner gid h
    simp [chownEffect, Keyring.chgrpArgs, h]

/-- Claim C7, witness: the sentinel theorem at uid 1000 / gid 1000 with
current owner (1, 2). -/
theorem chown_chgrp_sentinel_encoding_witness :
    (Keyring.chownArgs 1000).gid = allOnesU32 ∧
    (Keyring.chgrpArgs 1000).uid = allOnesU32 ∧
    chownEffect (1, 2) (Keyring.chownArgs 1000) = (1000, 2) ∧
    chownEffect (1, 2) (Keyring.chgrpArgs 1000) = (1, 1000) ∧
    keyctl_chown_args none (some 7) = { uid := allOnesU32, gid := 7 } ∧
    keyctl_chown_args (some 7) none = { uid := 7, gid := allOnesU32 } :=
  ⟨chown_chgrp_sentinel_encoding.1 1000,
   chown_chgrp_sentinel_encoding.2.1 1000,
   chown_chgrp_sentinel_encoding.2.2.1 (1, 2) 1000 (by decide),
   chown_chgrp_sentinel_encoding.2.2.2.1 (1, 2) 1000 (by decide),
   chown_chgrp_sentinel_encoding.2.2.2.2.1 7,
   chown_chgrp_sentinel_encoding.2.2.2.2.2.1 7⟩

/-- Claim C8: the permission constants form four disjoint 6-bit zones,
possessor at bits 24-29, user at 16-21, group at 8-13, other at 0-5, each
zone holding exactly view/read/write/search/link/set-attribute at offsets
0..5, and each zone's ALL constant is the bitwise OR of its six rights. -/
theorem permission_constants_zone_layout :
    KEY_POS_VIEW = 2 ^ 24 ∧ KEY_POS_READ = 2 ^ 25 ∧ KEY_POS_WRITE = 2 ^ 26 ∧
    KEY_POS_SEARCH = 2 ^ 27 ∧ KEY_POS_LINK = 2 ^ 28 ∧
    KEY_POS_SETATTR = 2 ^ 29 ∧
    KEY_POS_ALL = (KEY_POS_VIEW ||| KEY_POS_READ ||| KEY_POS_WRITE |||
      KEY_POS_SEARCH ||| KEY_POS_LINK ||| KEY_POS_SETATTR) ∧
    KEY_USR_VIEW = 2 ^ 16 ∧ KEY_USR_READ = 2 ^ 17 ∧ KEY_USR_WRITE = 2 ^ 18 ∧
    KEY_USR_SEARCH = 2 ^ 19 ∧ KEY_USR_LINK = 2 ^ 20 ∧
    KEY_USR_SETATTR = 2 ^ 21 ∧
    KEY_USR_ALL = (KEY_USR_VIEW ||| KEY_USR_READ ||| KEY_USR_WRITE |||
      KEY_USR_SEARCH ||| KEY_USR_LINK ||| KEY_USR_SETATTR) ∧
    KEY_GRP_VIEW = 2 ^ 8 ∧ KEY_GRP_READ = 2 ^ 9 ∧ KEY_GRP_WRITE = 2 ^ 10 ∧
    KEY_GRP_SEARCH = 2 ^ 11 ∧ KEY_GRP_LINK = 2 ^ 12 ∧
    KEY_GRP_SETATTR = 2 ^ 13 ∧
    KEY_GRP_ALL = (KEY_GRP_VIEW ||| KEY_GRP_READ ||| KEY_GRP_WRITE |||
      KEY_GRP_SEARCH ||| KEY_GRP_LINK ||| KEY_GRP_SETATTR) ∧
    KEY_OTH_VIEW = 2 ^ 0 ∧ KEY_OTH_READ = 2 ^ 1 ∧ KEY_OTH_WRITE = 2 ^ 2 ∧
    KEY_OTH_SEARCH = 2 ^ 3 ∧ KEY_OTH_LINK = 2 ^ 4 ∧
    KEY_OTH_SETATTR = 2 ^ 5 ∧
    KEY_OTH_ALL = (KEY_OTH_VIEW ||| KEY_OTH_READ ||| KEY_OTH_WRITE |||
      KEY_OTH_SEARCH ||| KEY_OTH_LINK ||| KEY_OTH_SETATTR) ∧
    KEY_POS_ALL &&& KEY_USR_ALL = 0 ∧ KEY_POS_ALL &&& KEY_GRP_ALL = 0 ∧
    KEY_POS_ALL &&& KEY_OTH_ALL = 0 ∧ KEY_USR_ALL &&& KEY_GRP_ALL = 0 ∧
    KEY_USR_ALL &&& KEY_OTH_ALL = 0 ∧ KEY_GRP_ALL &&& KEY_OTH_ALL = 0 := by
  decide

/-- Claim C9: converting a caller string to a C string panics exactly when the
string holds an interior NUL; a NUL-free string (the empty string included)
is passed through unmodified up to the appended terminator, and the request
and add-key operations panic when their description holds a NUL. -/
theorem cstring_interior_nul_policy :
    (∀ s : List Char, nulChar ∈ s → cstring s = .panicked) ∧
    (∀ s : List Char, nulChar ∉ s → cstring s = .value (s ++ [nulChar])) ∧
    cstring "".toList = .value [nulChar] ∧
    (∀ (k d : List Char) (i : Option (List Char)) (id : Option Int),
       nulChar ∈ d → request_impl k d i id = .panicked) ∧
    (∀ (k d : List Char) (p : List ℕ) (r : Int),
       nulChar ∈ d → Keyring.add_key_impl k d p r = .panicked) := by
  refine ⟨?_, ?_, by decide, ?_, ?_⟩
  · intro s h
    simp [cstring, h]
  · intro s h
    simp [cstring, h]
  · intro k d i id h
    by_cases hk : nulChar ∈ k <;> simp [request_impl, cstring, h, hk]
  · intro k d p r h
    by_cases hk : nulChar ∈ k <;> simp [Keyring.add_key_impl, cstring, h, hk]

/-- Claim C9, witness: the NUL policy at the string "a\x00b" (interior NUL)
and at "ab" (no NUL). -/
theorem cstring_interior_nul_policy_witness :
    cstring "a\x00b".toList = .panicked ∧
    cstring "ab".toList = .value ("ab".toList ++ [nulChar]) ∧
    cstring "".toList = .value [nulChar] ∧
    request_impl "user".toList "a\x00b".toList none none = .panicked ∧
    Keyring.add_key_impl "user".toList "a\x00b".toList [1, 2] 99 = .panicked :=
  ⟨cstring_interior_nul_policy.1 _ (by decide),
   cstring_interior_nul_policy.2.1 _ (by decide),
   cstring_interior_nul_policy.2.2.1,
   cstring_interior_nul_policy.2.2.2.1 _ _ none none (by decide),
   cstring_interior_nul_policy.2.2.2.2 _ _ [1, 2] 99 (by decide)⟩

/-- Claim C10: `Key::request_with_fallback::<K, D, I>` issues its request with
the Keyring key type's kernel name "keyring" whatever `K` is — the result is
independent of `K::name()`, and on NUL-free inputs the issued type string is
exactly "keyring" with its terminator. -/
theorem request_with_fallback_uses_keyring_type :
    ∀ kName k2 descStr info : List Char,
      Key.request_with_fallback kName descStr info =
        Key.request_with_fallback k2 descStr info ∧
      (nulChar ∉ descStr → nulChar ∉ info →
        Key.request_with_fallback kName descStr info =
          .value { type_ := keyringTypeName ++ [nulChar],
                   desc := descStr ++ [nulChar],
                   callout := some (info ++ [nulChar]),
                   keyring := none }) := by
  intro kName k2 descStr info
  have hk : nulChar ∉ keyringTypeName := by decide
  refine ⟨rfl, ?_⟩
  intro h1 h2
  simp [Key.request_with_fallback, request_impl, cstring, hk, h1, h2]

/-- Claim C10, witness: the fallback request at the type names "user" and
"logon" with description "d" and callout info "i". -/
theorem request_with_fallback_uses_keyring_type_witness :
    Key.request_with_fallback "user".toList "d".toList "i".toList =
      Key.request_with_fallback "logon".toList "d".toList "i".toList ∧
    Key.request_with_fallback "user".toList "d".toList "i".toList =
      .value { type_ := keyringTypeName ++ [nulChar],
               desc := "d".toList ++ [nulChar],
               callout := some ("i".toList ++ [nulChar]),
               keyring := none } :=
  ⟨(request_with_fallback_uses_keyring_type "user".toList "logon".toList
      "d".toList "i".toList).1,
   (request_with_fallback_uses_keyring_type "user".toList "logon".toList
      "d".toList "i".toList).2 (by decide) (by decide)⟩

/-- Helper: on a children list whose describe outcomes are all non-fatal the
classification loop succeeds, with the accumulators prepended. -/
theorem readClassify_ok_of_nonfatal
    (xs : List (Int × Except Errno Description)) :
    ∀ ka kra : List Int, (∀ c ∈ xs, childNonfatal c = true) →
      Keyring.readClassify xs ka kra =
        .ok (ka.reverse ++ classifiedKeys xs,
             kra.reverse ++ classifiedKeyrings xs) := by
  induction xs with
  | nil =>
    intro ka kra _
    simp [Keyring.readClassify, classifiedKeys, classifiedKeyrings]
  | cons c rest ih =>
    intro ka kra h
    obtain ⟨id, res⟩ := c
    have hrest : ∀ x ∈ rest, childNonfatal x = true :=
      fun x hx => h x (List.mem_cons_of_mem _ hx)
    cases res with
    | ok d =>
      by_cases ht : d.type_ = keyringTypeName
      · simp only [Keyring.readClassify]
        rw [if_pos ht, ih ka (id :: kra) hrest]
        simp [classifiedKeys, classifiedKeyrings, ht]
      · simp only [Keyring.readClassify]
        rw [if_neg ht, ih (id :: ka) kra hrest]
        simp [classifiedKeys, classifiedKeyrings, ht]
    | error e =>
      have he : e = ENOKEY := by
        have hc := h (id, .error e) (List.mem_cons_self _ _)
        by_cases he : e = ENOKEY
        · exact he
        · simp [childNonfatal, he] at hc
      subst he
      have hstep : Keyring.readClassify ((id, Except.error ENOKEY) :: rest)
          ka kra = Keyring.readClassify rest ka kra := by
        simp [Keyring.readClassify]
      rw [hstep, ih ka kra hrest]
      simp [classifiedKeys, classifiedKeyrings]

/-- Helper: a child whose describe fails with a non-ENOKEY error aborts the
classification loop with that error, whatever follows it. -/
theorem readClassify_error_of_fatal
    (pre : List (Int × Except Errno Description)) :
    ∀ (ka kra : List Int) (id : Int) (e : Errno)
      (rest : List (Int × Except Errno Description)),
      e ≠ ENOKEY → (∀ c ∈ pre, childNonfatal c = true) →
      Keyring.readClassify (pre ++ (id, .error e) :: rest) ka kra =
        .error e := by
  induction pre with
  | nil =>
    intro ka kra id e rest he _
    simp [Keyring.readClassify, he]
  | cons c pre ih =>
    intro ka kra id e rest he h
    obtain ⟨cid, res⟩ := c
    have hpre : ∀ x ∈ pre, childNonfatal x = true :=
      fun x hx => h x (List.mem_cons_of_mem _ hx)
    cases res with
    | ok d =>
      by_cases ht : d.type_ = keyringTypeName
      · rw [List.cons_append]
        simp only [Keyring.readClassify]
        rw [if_pos ht]
        exact ih ka (cid :: kra) id e rest he hpre
      · rw [List.cons_append]
        simp only [Keyring.readClassify]
        rw [if_neg ht]
        exact ih (cid :: ka) kra id e rest he hpre
    | error e2 =>
      have he2 : e2 = ENOKEY := by
        have hc := h (cid, .error e2) (List.mem_cons_self _ _)
        by_cases he2 : e2 = ENOKEY
        · exact he2
        · simp [childNonfatal, he2] at hc
      subst he2
      rw [List.cons_append]
      have hstep : Keyring.readClassify
          ((cid, Except.error ENOKEY) :: (pre ++ (id, Except.error e) :: rest))
          ka kra =
          Keyring.readClassify (pre ++ (id, Except.error e) :: rest) ka kra := by
        simp [Keyring.readClassify]
      rw [hstep]
      exact ih ka kra id e rest he hpre

/-- Claim C4: in the children classification of a keyring read, if every
child's describe outcome is a success or the ENOKEY error, the read succeeds
and returns exactly the successfully described children split by type — the
ENOKEY children are silently omitted; and a child whose describe fails with
any other error (all earlier children being non-fatal) makes the whole read
return that error. -/
theorem keyring_read_skips_enokey_children :
    (∀ xs : List (Int × Except Errno Description),
       (∀ c ∈ xs, childNonfatal c = true) →
       Keyring.readChildren xs =
         .ok (classifiedKeys xs, classifiedKeyrings xs)) ∧
    (∀ (pre : List (Int × Except Errno Description)) (id : Int) (e : Errno)
       (rest : List (Int × Except Errno Description)),
       e ≠ ENOKEY → (∀ c ∈ pre, childNonfatal c = true) →
       Keyring.readChildren (pre ++ (id, .error e) :: rest) = .error e) := by
  constructor
  · intro xs h
    unfold Keyring.readChildren
    rw [readClassify_ok_of_nonfatal xs [] [] h]
    simp
  · intro pre id e rest he h
    exact readClassify_error_of_fatal pre [] [] id e rest he h

/-- A child key of type "user", for the C4 witness. -/
def childUserKey : Int × Except Errno Description :=
  (1, .ok { type_ := "user".toList, uid := 1000, gid := 1000,
            perms := 0x3f010000, description := "d1".toList })

/-- A child invalidated between the parent read and its describe call, for
the C4 witness. -/
def childGone : Int × Except Errno Description := (2, .error ENOKEY)

/-- A child keyring, for the C4 witness. -/
def childRing : Int × Except Errno Description :=
  (3, .ok { type_ := "keyring".toList, uid := 1000, gid := 1000,
            perms := 0x3f010000, description := "d3".toList })

/-- Claim C4, witness: a read over a user key, an ENOKEY child and a keyring
yields exactly the key and the keyring (the ENOKEY child omitted), while a
child failing with EACCES (13) aborts the read with EACCES. -/
theorem keyring_read_skips_enokey_children_witness :
    Keyring.readChildren [childUserKey, childGone, childRing] =
      .ok ([1], [3]) ∧
    Keyring.readChildren [childUserKey, (2, .error 13)] = .error 13 :=
  ⟨(keyring_read_skips_enokey_children.1 _ (by decide)).trans (by decide),
   keyring_read_skips_enokey_children.2 [childUserKey] 2 13 []
     (by decide) (by decide)⟩

/-- Claim C5, counterexample: the string "x;a;b;c;d;e" splits into six
semicolon-separated fields, more than five, yet parsing does not succeed: the
uid field (the third piece from the end, "b") fails its numeric conversion
and the `unwrap` panics. -/
theorem description_parse_six_malformed_fields_panics :
    (splitSemi "x;a;b;c;d;e".toList []).length = 6 ∧
    Description.parse "x;a;b;c;d;e".toList = .panicked := by
  decide

/-- Claim C5, amended: a kernel string splitting into fewer than five fields
makes the describe path return EINVAL, and a string with more than five
fields whose trailing numeric fields are well formed (hex permission piece,
decimal uid and gid pieces) still parses, with the extra leading fields
ignored. -/
theorem description_parse_field_count_policy :
    (∀ raw : List Char, (splitSemi raw []).length < 5 →
       Keyring.description raw = .value (.error EINVAL)) ∧
    (∀ (raw : List Char) (bits uid gid : ℕ),
       5 < (splitSemi raw []).length →
       parseU32Radix 16 (splitSemi raw []).reverse[1]! = some bits →
       parseU32Radix 10 (splitSemi raw []).reverse[3]! = some uid →
       parseU32Radix 10 (splitSemi raw []).reverse[2]! = some gid →
       Description.parse raw =
         .value (some { type_ := (splitSemi raw []).reverse[4]!,
                        uid := uid, gid := gid,
                        perms := bits &&& permissionKnownBits,
                        description := (splitSemi raw []).reverse[0]! })) := by
  constructor
  · intro raw h
    have hp : Description.parse raw = .value none := by
      simp [Description.parse, h]
    unfold Keyring.description
    rw [hp]
  · intro raw bits uid gid h5 hb hu hg
    have hn : ¬ (splitSemi raw []).length < 5 := by omega
    simp [Description.parse, hn, hb, hu, hg]

/-- Claim C5, witness: the field-count policy at "a;b" (two fields, EINVAL)
and at the six-field string "x;type;1000;1000;3f010000;mydesc" (parsed, the
leading "x" ignored). -/
theorem description_parse_field_count_policy_witness :
    Keyring.description "a;b".toList = .value (.error EINVAL) ∧
    Description.parse "x;type;1000;1000;3f010000;mydesc".toList =
      .value (some { type_ := "type".toList, uid := 1000, gid := 1000,
                     perms := 0x3f010000, description := "mydesc".toList }) :=
  ⟨description_parse_field_count_policy.1 _ (by decide),
   (description_parse_field_count_policy.2
      "x;type;1000;1000;3f010000;mydesc".toList 0x3f010000 1000 1000
      (by decide) (by decide) (by decide) (by decide)).trans (by decide)⟩

end Keyutils
